import Mathlib

/-!
A verification development for the session-oriented browser-automation
service in `src/app.py`.  The dispatcher (`execute_action`'s if/elif chain),
the session registry operations (`create_session`, `close_session`) and the
per-session lock discipline are shallowly embedded below; driver behaviour
(playwright/browser-use calls) is an oracle: each call site is a field of
`Driver` returning `Except String _`, mirroring "the call returned" vs
"the call raised".  Exceptions of the Python code are `Except.error`;
pydantic optional fields are `Option`; Python truthiness of optional
strings (`not request.url`) is `pyFalsy`.
-/

namespace BrowserApp

/-- Python truthiness test of an optional string: `not x` is true for
`None` and for the empty string. -/
def pyFalsy : Option String → Bool
  | none => true
  | some s => s == ""

/-- Substring test on char lists (`needle` occurs inside the list). -/
def listHasSub (needle : List Char) : List Char → Bool
  | [] => needle.isEmpty
  | c :: cs => needle.isPrefixOf (c :: cs) || listHasSub needle cs

/-- Python's `needle in hay` substring test. -/
def strHasSub (hay needle : String) : Bool := listHasSub needle.toList hay.toList

/-- Python's `str.lower()` (character-wise, as Lean's `Char.toLower`). -/
def pyLower (s : String) : String := String.mk (s.toList.map Char.toLower)

/-- `BrowserActionRequest` of `src/app.py` (lines 32-42): an action tag plus
optional parameters. -/
structure BrowserActionRequest where
  action : String
  url : Option String := none
  index : Option Int := none
  text : Option String := none
  scroll_amount : Option Int := none
  tab_id : Option Int := none
  query : Option String := none
  goal : Option String := none
  keys : Option String := none
  seconds : Option Int := none
  deriving DecidableEq

/-- One structured web-search hit (title/url/description), as produced by the
scrape script of the `web_search` action. -/
structure SearchHit where
  title : String
  url : String
  description : String
  deriving DecidableEq

/-- One anchor record (text/href) produced by the `extract_content` links
script. -/
structure LinkRec where
  text : String
  href : String
  deriving DecidableEq

/-- One dropdown option (text/value/index) produced by the
`get_dropdown_options` page script. -/
structure DropOption where
  text : String
  value : String
  index : Int
  deriving DecidableEq

/-- A DOM element handle: the dispatcher only ever reads its `xpath`. -/
structure DomElement where
  xpath : String
  deriving DecidableEq

/-- `ToolResultResponse` of `src/app.py` (lines 45-49): the uniform result
envelope, all four slots optional and defaulting to absent. -/
structure ToolResultResponse where
  output : Option String := none
  error : Option String := none
  base64_image : Option String := none
  results : Option (List SearchHit) := none
  deriving DecidableEq

/-- The driver call sites of the dispatcher, one tag per awaited browser
operation, with the data the code passes to it. -/
inductive DriverCall where
  | getCurrentPage
  | goto (url : String)
  | waitForLoadState
  | goBack
  | refreshPage
  | searchScrape
  | getDomElementByIndex (i : Int)
  | clickElementNode (xpath : String)
  | inputTextElementNode (xpath : String) (text : String)
  | executeJavascript (script : String)
  | scrollToTextScript (text : String)
  | keyboardPress (keys : String)
  | dropdownOptionsScript (xpath : String)
  | selectOption (xpath : String) (label : String)
  | pageContent
  | pageTitle
  | linksScript
  | bodyInnerText
  | switchToTab (t : Int)
  | createNewTab (url : String)
  | closeCurrentTab
  | sleep (n : Int)
  deriving DecidableEq

/-- Did an `Except` computation return normally? -/
def exOk {ε α : Type} : Except ε α → Bool
  | Except.ok _ => true
  | Except.error _ => false

/-- The driver oracle: one field per call site of the dispatcher, giving the
value the awaited call returns, or the exception it raises. -/
structure Driver where
  getCurrentPage : Except String Unit
  goto : String → Except String Unit
  waitForLoadState : Except String Unit
  goBack : Except String Unit
  refreshPage : Except String Unit
  searchScrape : Except String (List SearchHit)
  getDomElementByIndex : Int → Except String (Option DomElement)
  clickElementNode : DomElement → Except String (Option String)
  inputTextElementNode : DomElement → String → Except String Unit
  executeJavascript : String → Except String Unit
  scrollToTextScript : String → Except String Unit
  keyboardPress : String → Except String Unit
  dropdownOptionsScript : String → Except String (Option (List DropOption))
  selectOption : String → String → Except String Unit
  pageContent : Except String String
  pageTitle : Except String String
  linksScript : Except String (List LinkRec)
  bodyInnerText : Except String String
  switchToTab : Int → Except String Unit
  createNewTab : String → Except String Unit
  closeCurrentTab : Except String Unit
  sleep : Int → Except String Unit

/-- A dispatcher computation: its result (normal return or raised exception)
together with the trace of driver calls it made, each tagged with whether
that call returned normally. -/
abbrev DM (α : Type) : Type := Except String α × List (DriverCall × Bool)

/-- Return a value, making no driver call. -/
def DM.pure {α : Type} (a : α) : DM α := (Except.ok a, [])

/-- Sequencing: a raised exception skips the rest, as in Python. -/
def DM.bind {α β : Type} (x : DM α) (f : α → DM β) : DM β :=
  match x.1 with
  | Except.ok a => ((f a).1, x.2 ++ (f a).2)
  | Except.error e => (Except.error e, x.2)

/-- An awaited driver call: records the call and whether it returned. -/
def callD {α : Type} (c : DriverCall) (r : Except String α) : DM α := (r, [(c, exOk r)])

/-- `try ... except Exception as e: handler(e)` around a dispatcher block. -/
def DM.tryCatch {α : Type} (x : DM α) (h : String → DM α) : DM α :=
  match x.1 with
  | Except.ok a => (Except.ok a, x.2)
  | Except.error e => ((h e).1, x.2 ++ (h e).2)

/-- Rendering of a dropdown option as Python's `f"{options}"` repr (string
escaping inside the values is not reproduced). -/
def pyReprDropOption (o : DropOption) : String :=
  "\x7b'text': '" ++ o.text ++ "', 'value': '" ++ o.value ++ "', 'index': " ++
    toString o.index ++ "\x7d"

/-- Rendering of the dropdown-options script result (`None` or a list of
dicts), as Python's f-string formats it. -/
def pyReprOptions : Option (List DropOption) → String
  | none => "None"
  | some l => "[" ++ String.intercalate ", " (l.map pyReprDropOption) ++ "]"

/-- A JSON string literal (escaping inside the value is not reproduced). -/
def jsonQuote (s : String) : String := "\"" ++ s ++ "\""

/-- One link as `json.dumps(..., indent=2)` renders a `{text, href}` dict. -/
def dumpsLink (l : LinkRec) : String :=
  "  \x7b\n    \"text\": " ++ jsonQuote l.text ++ ",\n    \"href\": " ++
    jsonQuote l.href ++ "\n  \x7d"

/-- The link list as `json.dumps(links, indent=2)` renders it. -/
def dumpsLinks (ls : List LinkRec) : String :=
  if ls.isEmpty then "[]"
  else "[\n" ++ String.intercalate ",\n" (ls.map dumpsLink) ++ "\n]"

/-- The action vocabulary the if/elif chain of `execute_action` recognizes. -/
def recognizedActions : List String :=
  ["go_to_url", "go_back", "refresh", "web_search", "click_element", "input_text",
   "scroll_down", "scroll_up", "scroll_to_text", "send_keys", "get_dropdown_options",
   "select_dropdown_option", "extract_content", "switch_tab", "open_tab", "close_tab",
   "wait"]

/-- The required-field validation of each action branch: `some message` when
the branch would return its validation error, `none` otherwise.  Mirrors the
guards at the top of each branch of `execute_action`. -/
def missingCheck (req : BrowserActionRequest) : Option String :=
  if req.action = "go_to_url" then
    if pyFalsy req.url then some "URL is required for 'go_to_url' action" else none
  else if req.action = "web_search" then
    if pyFalsy req.query then some "Query is required for 'web_search' action" else none
  else if req.action = "click_element" then
    if req.index.isNone then some "Index is required for 'click_element' action" else none
  else if req.action = "input_text" then
    if req.index.isNone || pyFalsy req.text then
      some "Index and text are required for 'input_text' action" else none
  else if req.action = "scroll_to_text" then
    if pyFalsy req.text then some "Text is required for 'scroll_to_text' action" else none
  else if req.action = "send_keys" then
    if pyFalsy req.keys then some "Keys are required for 'send_keys' action" else none
  else if req.action = "get_dropdown_options" then
    if req.index.isNone then
      some "Index is required for 'get_dropdown_options' action" else none
  else if req.action = "select_dropdown_option" then
    if req.index.isNone || pyFalsy req.text then
      some "Index and text are required for 'select_dropdown_option' action" else none
  else if req.action = "extract_content" then
    if pyFalsy req.goal then some "Goal is required for 'extract_content' action" else none
  else if req.action = "switch_tab" then
    if req.tab_id.isNone then some "Tab ID is required for 'switch_tab' action" else none
  else if req.action = "open_tab" then
    if pyFalsy req.url then some "URL is required for 'open_tab' action" else none
  else none

/-- The body of `execute_action` inside the `try` (src/app.py lines 98-317):
one `if/elif` chain from the action tag to driver calls and a
`ToolResultResponse`. -/
def dispatchAction (d : Driver) (req : BrowserActionRequest) : DM ToolResultResponse :=
  if req.action = "go_to_url" then
    if pyFalsy req.url then
      DM.pure { error := some "URL is required for 'go_to_url' action" }
    else
      let u := req.url.getD ""
      DM.bind (callD DriverCall.getCurrentPage d.getCurrentPage) fun _ =>
      DM.bind (callD (DriverCall.goto u) (d.goto u)) fun _ =>
      DM.bind (callD DriverCall.waitForLoadState d.waitForLoadState) fun _ =>
      DM.pure { output := some ("Navigated to " ++ u) }
  else if req.action = "go_back" then
    DM.bind (callD DriverCall.goBack d.goBack) fun _ =>
    DM.pure { output := some "Navigated back" }
  else if req.action = "refresh" then
    DM.bind (callD DriverCall.refreshPage d.refreshPage) fun _ =>
    DM.pure { output := some "Refreshed current page" }
  else if req.action = "web_search" then
    if pyFalsy req.query then
      DM.pure { error := some "Query is required for 'web_search' action" }
    else
      let q := req.query.getD ""
      let search_url := "https://www.google.com/search?q=" ++ q
      DM.bind (callD DriverCall.getCurrentPage d.getCurrentPage) fun _ =>
      DM.bind (callD (DriverCall.goto search_url) (d.goto search_url)) fun _ =>
      DM.bind (callD DriverCall.waitForLoadState d.waitForLoadState) fun _ =>
      DM.tryCatch
        (DM.bind (callD DriverCall.searchScrape d.searchScrape) fun results =>
         DM.pure { output := some ("Search results for '" ++ q ++ "'"),
                   results := some (results.take 5) })
        (fun e =>
         DM.pure { output := some ("Navigated to search results for '" ++ q ++
                     "' but couldn't extract them"),
                   error := some e })
  else if req.action = "click_element" then
    if req.index.isNone then
      DM.pure { error := some "Index is required for 'click_element' action" }
    else
      let i := req.index.getD 0
      DM.bind (callD (DriverCall.getDomElementByIndex i) (d.getDomElementByIndex i))
        fun element =>
      match element with
      | none =>
        DM.pure { error := some ("Element with index " ++ toString i ++ " not found") }
      | some el =>
        DM.tryCatch
          (DM.bind (callD (DriverCall.clickElementNode el.xpath) (d.clickElementNode el))
            fun download_path =>
           DM.pure { output := some ("Clicked element at index " ++ toString i ++
             (if pyFalsy download_path then ""
              else " - Downloaded file to " ++ download_path.getD "")) })
          (fun e => DM.pure { error := some ("Failed to click element: " ++ e) })
  else if req.action = "input_text" then
    if req.index.isNone || pyFalsy req.text then
      DM.pure { error := some "Index and text are required for 'input_text' action" }
    else
      let i := req.index.getD 0
      let t := req.text.getD ""
      DM.bind (callD (DriverCall.getDomElementByIndex i) (d.getDomElementByIndex i))
        fun element =>
      match element with
      | none =>
        DM.pure { error := some ("Element with index " ++ toString i ++ " not found") }
      | some el =>
        DM.tryCatch
          (DM.bind (callD (DriverCall.inputTextElementNode el.xpath t)
              (d.inputTextElementNode el t)) fun _ =>
           DM.pure { output := some ("Input '" ++ t ++ "' into element at index " ++
             toString i) })
          (fun e => DM.pure { error := some ("Failed to input text: " ++ e) })
  else if req.action = "scroll_down" ∨ req.action = "scroll_up" then
    let direction : Int := if req.action = "scroll_down" then 1 else -1
    let amount := req.scroll_amount.getD 500
    let script := "window.scrollBy(0, " ++ toString (direction * amount) ++ ");"
    DM.bind (callD (DriverCall.executeJavascript script) (d.executeJavascript script))
      fun _ =>
    DM.pure { output := some ("Scrolled " ++ (if direction > 0 then "down" else "up") ++
      " by " ++ toString amount ++ " pixels") }
  else if req.action = "scroll_to_text" then
    if pyFalsy req.text then
      DM.pure { error := some "Text is required for 'scroll_to_text' action" }
    else
      let t := req.text.getD ""
      DM.bind (callD DriverCall.getCurrentPage d.getCurrentPage) fun _ =>
      DM.tryCatch
        (DM.bind (callD (DriverCall.scrollToTextScript t) (d.scrollToTextScript t))
          fun _ =>
         DM.pure { output := some ("Scrolled to text: '" ++ t ++ "'") })
        (fun e => DM.pure { error := some ("Failed to scroll to text: " ++ e) })
  else if req.action = "send_keys" then
    if pyFalsy req.keys then
      DM.pure { error := some "Keys are required for 'send_keys' action" }
    else
      let k := req.keys.getD ""
      DM.bind (callD DriverCall.getCurrentPage d.getCurrentPage) fun _ =>
      DM.bind (callD (DriverCall.keyboardPress k) (d.keyboardPress k)) fun _ =>
      DM.pure { output := some ("Sent keys: " ++ k) }
  else if req.action = "get_dropdown_options" then
    if req.index.isNone then
      DM.pure { error := some "Index is required for 'get_dropdown_options' action" }
    else
      let i := req.index.getD 0
      DM.bind (callD (DriverCall.getDomElementByIndex i) (d.getDomElementByIndex i))
        fun element =>
      match element with
      | none =>
        DM.pure { error := some ("Element with index " ++ toString i ++ " not found") }
      | some el =>
        DM.bind (callD DriverCall.getCurrentPage d.getCurrentPage) fun _ =>
        DM.bind (callD (DriverCall.dropdownOptionsScript el.xpath)
            (d.dropdownOptionsScript el.xpath)) fun options =>
        DM.pure { output := some ("Dropdown options: " ++ pyReprOptions options) }
  else if req.action = "select_dropdown_option" then
    if req.index.isNone || pyFalsy req.text then
      DM.pure { error := some "Index and text are required for 'select_dropdown_option' action" }
    else
      let i := req.index.getD 0
      let t := req.text.getD ""
      DM.bind (callD (DriverCall.getDomElementByIndex i) (d.getDomElementByIndex i))
        fun element =>
      match element with
      | none =>
        DM.pure { error := some ("Element with index " ++ toString i ++ " not found") }
      | some el =>
        DM.bind (callD DriverCall.getCurrentPage d.getCurrentPage) fun _ =>
        DM.bind (callD (DriverCall.selectOption el.xpath t) (d.selectOption el.xpath t))
          fun _ =>
        DM.pure { output := some ("Selected option '" ++ t ++ "' from dropdown at index " ++
          toString i) }
  else if req.action = "extract_content" then
    if pyFalsy req.goal then
      DM.pure { error := some "Goal is required for 'extract_content' action" }
    else
      let g := req.goal.getD ""
      DM.bind (callD DriverCall.getCurrentPage d.getCurrentPage) fun _ =>
      DM.bind (callD DriverCall.pageContent d.pageContent) fun _content =>
      if strHasSub (pyLower g) "title" then
        DM.bind (callD DriverCall.pageTitle d.pageTitle) fun title =>
        DM.pure { output := some ("Page title: " ++ title) }
      else if strHasSub (pyLower g) "links" then
        DM.bind (callD DriverCall.linksScript d.linksScript) fun links =>
        DM.pure { output := some ("Extracted links: " ++ dumpsLinks links) }
      else
        DM.bind (callD DriverCall.bodyInnerText d.bodyInnerText) fun text_content =>
        DM.pure { output := some ("Page content: " ++ text_content.take 2000 ++ "...") }
  else if req.action = "switch_tab" then
    if req.tab_id.isNone then
      DM.pure { error := some "Tab ID is required for 'switch_tab' action" }
    else
      let tid := req.tab_id.getD 0
      DM.bind (callD (DriverCall.switchToTab tid) (d.switchToTab tid)) fun _ =>
      DM.bind (callD DriverCall.getCurrentPage d.getCurrentPage) fun _ =>
      DM.bind (callD DriverCall.waitForLoadState d.waitForLoadState) fun _ =>
      DM.pure { output := some ("Switched to tab " ++ toString tid) }
  else if req.action = "open_tab" then
    if pyFalsy req.url then
      DM.pure { error := some "URL is required for 'open_tab' action" }
    else
      let u := req.url.getD ""
      DM.bind (callD (DriverCall.createNewTab u) (d.createNewTab u)) fun _ =>
      DM.pure { output := some ("Opened new tab with " ++ u) }
  else if req.action = "close_tab" then
    DM.bind (callD DriverCall.closeCurrentTab d.closeCurrentTab) fun _ =>
    DM.pure { output := some "Closed current tab" }
  else if req.action = "wait" then
    let seconds_to_wait := req.seconds.getD 3
    DM.bind (callD (DriverCall.sleep seconds_to_wait) (d.sleep seconds_to_wait)) fun _ =>
    DM.pure { output := some ("Waited for " ++ toString seconds_to_wait ++ " seconds") }
  else
    DM.pure { error := some ("Unknown action: " ++ req.action) }

/-- The catch-all around the dispatcher (src/app.py lines 319-320): an escaped
exception becomes a `ToolResultResponse.error`, never a raised exception. -/
def runDispatch (d : Driver) (req : BrowserActionRequest) :
    ToolResultResponse × List (DriverCall × Bool) :=
  match (dispatchAction d req).1 with
  | Except.ok r => (r, (dispatchAction d req).2)
  | Except.error e =>
    ({ error := some ("Browser action '" ++ req.action ++ "' failed: " ++ e) },
     (dispatchAction d req).2)

/-- Scheduling events of one `execute` call: the per-session guard acquire and
release, and the driver calls in between. -/
inductive Event where
  | acquire (sid : String)
  | release (sid : String)
  | driver (c : DriverCall)
  deriving DecidableEq

/-- The event trace of one `execute` call on session `sid` that performs the
driver calls `ds`: guard acquired first, released last. -/
def execTrace (sid : String) (ds : List DriverCall) : List Event :=
  Event.acquire sid :: (ds.map Event.driver ++ [Event.release sid])

/-- One `execute` call on a looked-up session: `async with session["lock"]`
around the dispatched action (src/app.py lines 92-320).  Returns the response
and the call's event trace. -/
def execute_action (sid : String) (d : Driver) (req : BrowserActionRequest) :
    ToolResultResponse × List Event :=
  ((runDispatch d req).1, execTrace sid (((runDispatch d req).2).map Prod.fst))

/-! ## The session registry and its operations

The Python module keeps `sessions: Dict[str, dict]`, a mapping from session
identifiers to session objects; a session object holds `browser`, `context`,
`dom_service` and `lock`.  The mapping is embedded as an association list
from identifier to an object id, together with a heap from object ids to the
open/closed state of the object's context and browser; this separates the
dictionary (which `close_session` only mutates by `del`) from the session
object (which closing mutates in place). -/

/-- Python dict lookup on an association list. -/
def dictGet {α β : Type} [DecidableEq α] : List (α × β) → α → Option β
  | [], _ => none
  | (k, v) :: rest, a => if k = a then some v else dictGet rest a

/-- Python `del m[a]` (no entry with key `a` remains). -/
def dictDel {α β : Type} [DecidableEq α] (m : List (α × β)) (a : α) : List (α × β) :=
  m.filter fun p => p.1 != a

/-- Python `m[a] = b` (replaces any previous entry for `a`). -/
def dictSet {α β : Type} [DecidableEq α] (m : List (α × β)) (a : α) (b : β) : List (α × β) :=
  (a, b) :: dictDel m a

/-- The mutable state of one session object: whether its context and its
browser are still open.  `create_session` always stores both handles, so they
are modelled as present (the `is not None` guards of `close_session` are
always true for sessions the registry created). -/
structure SessionRec where
  contextOpen : Bool
  browserOpen : Bool
  deriving DecidableEq

/-- The whole service state: the `sessions` dict (identifier to object id),
the heap of session objects, and the next fresh object id. -/
structure ServiceState where
  sessions : List (String × Nat)
  objs : List (Nat × SessionRec)
  nextObj : Nat
  deriving DecidableEq

/-- The state before any request. -/
def initState : ServiceState := { sessions := [], objs := [], nextObj := 0 }

/-- An HTTP-level outcome: a normal JSON reply or an `HTTPException`. -/
inductive HttpOutcome (α : Type) where
  | ok (a : α)
  | httpError (code : Nat) (detail : String)
  deriving DecidableEq

/-- `POST /session/create` (src/app.py lines 52-81): launch browser and
context, store the session under a fresh identifier.  `launchOk` is whether
the engine setup succeeded; a failed setup raises out of the handler and
stores nothing. -/
def create_session (st : ServiceState) (sid : String) (launchOk : Bool) :
    ServiceState × HttpOutcome String :=
  if launchOk then
    ({ sessions := dictSet st.sessions sid st.nextObj,
       objs := dictSet st.objs st.nextObj { contextOpen := true, browserOpen := true },
       nextObj := st.nextObj + 1 },
     HttpOutcome.ok sid)
  else (st, HttpOutcome.httpError 500 "engine unavailable")

/-- Mark the context of object `o` closed (in-place mutation of the session
object). -/
def markContextClosed (m : List (Nat × SessionRec)) (o : Nat) : List (Nat × SessionRec) :=
  match dictGet m o with
  | some r => dictSet m o { r with contextOpen := false }
  | none => m

/-- Mark the browser of object `o` closed. -/
def markBrowserClosed (m : List (Nat × SessionRec)) (o : Nat) : List (Nat × SessionRec) :=
  match dictGet m o with
  | some r => dictSet m o { r with browserOpen := false }
  | none => m

/-- The teardown calls `close_session` awaits, in order. -/
inductive CloseCall where
  | closeContext
  | closeBrowser
  deriving DecidableEq

/-- `DELETE /session/{session_id}` (src/app.py lines 383-400): close the
context, then the browser; on success delete the registry entry; an exception
from either close becomes a 500 and skips the `del`.  `ctxRes`/`brRes` are
the outcomes of the two awaited closes; the trace lists the closes that were
attempted. -/
def close_session (st : ServiceState) (sid : String) (ctxRes brRes : Except String Unit) :
    ServiceState × HttpOutcome String × List CloseCall :=
  match dictGet st.sessions sid with
  | none => (st, HttpOutcome.httpError 404 "Session not found", [])
  | some o =>
    match ctxRes with
    | Except.error e =>
      (st, HttpOutcome.httpError 500 ("Failed to close session: " ++ e),
       [CloseCall.closeContext])
    | Except.ok _ =>
      let st1 : ServiceState := { st with objs := markContextClosed st.objs o }
      match brRes with
      | Except.error e =>
        (st1, HttpOutcome.httpError 500 ("Failed to close session: " ++ e),
         [CloseCall.closeContext, CloseCall.closeBrowser])
      | Except.ok _ =>
        ({ st1 with objs := markBrowserClosed st1.objs o,
                    sessions := dictDel st1.sessions sid },
         HttpOutcome.ok "Session closed",
         [CloseCall.closeContext, CloseCall.closeBrowser])

/-- `POST /session/{session_id}/execute` (src/app.py lines 84-320): 404 when
the identifier is unknown, otherwise dispatch under the session's lock.  The
handler never assigns to `sessions`, so the state is returned unchanged. -/
def executeOp (st : ServiceState) (sid : String) (d : Driver) (req : BrowserActionRequest) :
    ServiceState × HttpOutcome ToolResultResponse :=
  match dictGet st.sessions sid with
  | none => (st, HttpOutcome.httpError 404 "Session not found")
  | some _ => (st, HttpOutcome.ok (execute_action sid d req).1)

/-- One client request, with the oracle outcomes it runs against. -/
inductive Op where
  | create (sid : String) (launchOk : Bool)
  | execute (sid : String) (d : Driver) (req : BrowserActionRequest)
  | getState (sid : String)
  | close (sid : String) (ctxRes brRes : Except String Unit)

/-- The state transition of one request (`GET /session/{id}/state` reads the
page through the driver and never touches the registry). -/
def applyOp (st : ServiceState) : Op → ServiceState
  | Op.create sid ok => (create_session st sid ok).1
  | Op.execute sid d req => (executeOp st sid d req).1
  | Op.getState _ => st
  | Op.close sid c b => (close_session st sid c b).1

/-- The state after a sequence of requests from startup. -/
def runOps (ops : List Op) : ServiceState := ops.foldl applyOp initState

/-- Does every registered session have its context and browser open? -/
def invHolds (st : ServiceState) : Bool :=
  st.sessions.all fun p =>
    match dictGet st.objs p.2 with
    | some r => r.contextOpen && r.browserOpen
    | none => false

/-- Does the request leave no teardown failure: for `close`, both awaited
closes return normally; every other request trivially. -/
def teardownOk : Op → Bool
  | Op.close _ c b => exOk c && exOk b
  | _ => true

/-! ## The per-session guard

Every session carries its own `asyncio.Lock`; `execute_action` holds it for
the whole dispatched action.  A schedule of two concurrent `execute` calls is
an interleaving of their event traces; the cooperative scheduler admits a
schedule iff no `acquire` fires while the same lock is held
(`lockValidFrom`). -/

/-- Which locks are held, as an indicator function on session identifiers. -/
def noneHeld : String → Bool := fun _ => false

/-- The effect of one event on the held-locks state: an `acquire` of a held
lock cannot be scheduled (`none`); `release` frees the lock; driver calls do
not touch it. -/
def lockStep (held : String → Bool) : Event → Option (String → Bool)
  | Event.acquire s => if held s then none else some (fun x => x == s || held x)
  | Event.release s => some (fun x => if x == s then false else held x)
  | Event.driver _ => some held

/-- Is a tagged schedule admissible from the given held-locks state? -/
def lockValidFrom (held : String → Bool) : List (Bool × Event) → Bool
  | [] => true
  | (_, e) :: rest =>
    match lockStep held e with
    | none => false
    | some h => lockValidFrom h rest

/-- Events of the first call, tagged. -/
def tagL (l : List Event) : List (Bool × Event) := l.map fun e => (true, e)

/-- Events of the second call, tagged. -/
def tagR (l : List Event) : List (Bool × Event) := l.map fun e => (false, e)

/-- `Interleaves xs ys zs`: `zs` is an interleaving of the two event lists,
each event tagged with the call it came from. -/
inductive Interleaves : List Event → List Event → List (Bool × Event) → Prop where
  | nil : Interleaves [] [] []
  | left {x xs ys zs} : Interleaves xs ys zs → Interleaves (x :: xs) ys ((true, x) :: zs)
  | right {y xs ys zs} : Interleaves xs ys zs → Interleaves xs (y :: ys) ((false, y) :: zs)

/-- What remains of one `execute` call's trace, together with whether the call
currently holds its session's guard: a full trace (guard not yet held), the
part after the `acquire` (guard held), or nothing (guard released). -/
inductive TaskRem (s : String) : List Event → Bool → Prop where
  | fin : TaskRem s [] false
  | rel : TaskRem s [Event.release s] true
  | drv (dc : DriverCall) {l : List Event} :
      TaskRem s l true → TaskRem s (Event.driver dc :: l) true
  | acq {l : List Event} : TaskRem s l true → TaskRem s (Event.acquire s :: l) false


/-! ## Lock-schedule lemmas -/

/-- Schedule with the two calls' tags swapped. -/
def flipTags (zs : List (Bool × Event)) : List (Bool × Event) := zs.map fun p => (!p.1, p.2)

/-- Guard held only by session `s`. -/
def oneHeld (s : String) : String → Bool := fun x => x == s

theorem interleaves_nil_left {ys : List Event} {zs : List (Bool × Event)}
    (h : Interleaves [] ys zs) : zs = tagR ys := by
  induction ys generalizing zs with
  | nil => cases h; rfl
  | cons y ys ih =>
    cases h with
    | right h' => rw [ih h']; rfl

theorem interleaves_flip {xs ys : List Event} {zs : List (Bool × Event)}
    (h : Interleaves xs ys zs) : Interleaves ys xs (flipTags zs) := by
  induction h with
  | nil => exact Interleaves.nil
  | left h' ih => exact Interleaves.right ih
  | right h' ih => exact Interleaves.left ih

theorem lockValid_flip (h : String → Bool) (zs : List (Bool × Event)) :
    lockValidFrom h (flipTags zs) = lockValidFrom h zs := by
  induction zs generalizing h with
  | nil => rfl
  | cons p zs ih =>
    obtain ⟨b, e⟩ := p
    show lockValidFrom h ((!b, e) :: flipTags zs) = lockValidFrom h ((b, e) :: zs)
    simp only [lockValidFrom]
    cases lockStep h e with
    | none => rfl
    | some h2 => exact ih h2

theorem flipTags_append (a b : List (Bool × Event)) :
    flipTags (a ++ b) = flipTags a ++ flipTags b := by
  simp [flipTags]

theorem flipTags_tagL (l : List Event) : flipTags (tagL l) = tagR l := by
  simp [flipTags, tagL, tagR]

theorem flipTags_tagR (l : List Event) : flipTags (tagR l) = tagL l := by
  simp [flipTags, tagL, tagR]

theorem flipTags_flipTags (zs : List (Bool × Event)) : flipTags (flipTags zs) = zs := by
  induction zs with
  | nil => rfl
  | cons p zs ih =>
    obtain ⟨b, e⟩ := p
    show (!!b, e) :: flipTags (flipTags zs) = (b, e) :: zs
    rw [Bool.not_not, ih]

theorem interleave_blocked (s : String) :
    ∀ (ds : List DriverCall) (ys : List Event) (zs : List (Bool × Event)),
    Interleaves (ds.map Event.driver ++ [Event.release s]) (Event.acquire s :: ys) zs →
    lockValidFrom (oneHeld s) zs = true →
    zs = tagL (ds.map Event.driver ++ [Event.release s]) ++ tagR (Event.acquire s :: ys) := by
  intro ds
  induction ds with
  | nil =>
    intro ys zs h hv
    simp only [List.map_nil, List.nil_append] at h ⊢
    cases h with
    | left h' => rw [interleaves_nil_left h']; rfl
    | right h' => simp [lockValidFrom, lockStep, oneHeld] at hv
  | cons dc ds ih =>
    intro ys zs h hv
    simp only [List.map_cons, List.cons_append] at h ⊢
    cases h with
    | @left x xs ys' zs' h' =>
      have hv' : lockValidFrom (oneHeld s) zs' = true := hv
      rw [ih ys _ h' hv']
      rfl
    | right h' => simp [lockValidFrom, lockStep, oneHeld] at hv

theorem guard_serializes (s : String) (ds1 ds2 : List DriverCall)
    (zs : List (Bool × Event))
    (h : Interleaves (execTrace s ds1) (execTrace s ds2) zs)
    (hv : lockValidFrom noneHeld zs = true) :
    zs = tagL (execTrace s ds1) ++ tagR (execTrace s ds2) ∨
    zs = tagR (execTrace s ds2) ++ tagL (execTrace s ds1) := by
  cases h with
  | @left x xs ys zs' h' =>
    left
    have hstep : lockValidFrom (oneHeld s) zs' = true := by
      have hv2 := hv
      simp only [lockValidFrom, lockStep, noneHeld, if_false] at hv2
      have heq : (fun x => x == s || false) = oneHeld s := by
        funext y
        simp [oneHeld]
      rwa [heq] at hv2
    rw [interleave_blocked s ds1 _ _ h' hstep]
    rfl
  | @right y xs ys zs' h' =>
    right
    have hstep : lockValidFrom (oneHeld s) zs' = true := by
      have hv2 := hv
      simp only [lockValidFrom, lockStep, noneHeld, if_false] at hv2
      have heq : (fun x => x == s || false) = oneHeld s := by
        funext y
        simp [oneHeld]
      rwa [heq] at hv2
    rw [← lockValid_flip] at hstep
    have hsh := interleave_blocked s ds2 _ _ (interleaves_flip h') hstep
    have hz := congrArg flipTags hsh
    rw [flipTags_flipTags, flipTags_append, flipTags_tagL, flipTags_tagR] at hz
    rw [hz]
    rfl

/-- The combined held-locks state of the two calls. -/
def held2 (s1 : String) (b1 : Bool) (s2 : String) (b2 : Bool) : String → Bool :=
  fun x => (x == s1 && b1) || (x == s2 && b2)

theorem disjoint_no_block_aux {s1 s2 : String} (hne : s1 ≠ s2) :
    ∀ {xs ys : List Event} {zs : List (Bool × Event)}, Interleaves xs ys zs →
    ∀ {b1 b2 : Bool}, TaskRem s1 xs b1 → TaskRem s2 ys b2 →
    lockValidFrom (held2 s1 b1 s2 b2) zs = true := by
  have h12 : (s1 == s2) = false := beq_eq_false_iff_ne.mpr hne
  have h21 : (s2 == s1) = false := beq_eq_false_iff_ne.mpr (Ne.symm hne)
  intro xs ys zs h
  induction h with
  | nil => intro b1 b2 _ _; rfl
  | @left x xs' ys' zs' h' ih =>
    intro b1 b2 t1 t2
    cases t1 with
    | rel =>
      have hf : (fun x => if x == s1 then false else held2 s1 true s2 b2 x) =
          held2 s1 false s2 b2 := by
        funext x
        by_cases hx : x = s1
        · subst hx
          simp [held2, h12]
        · have hx' : (x == s1) = false := beq_eq_false_iff_ne.mpr hx
          simp [held2, hx']
      have hred : lockValidFrom (held2 s1 true s2 b2) ((true, Event.release s1) :: zs') =
          lockValidFrom (fun x => if x == s1 then false else held2 s1 true s2 b2 x) zs' := rfl
      show lockValidFrom (held2 s1 true s2 b2) ((true, Event.release s1) :: zs') = true
      rw [hred, hf]
      exact ih TaskRem.fin t2
    | drv dc t1' =>
      exact ih t1' t2
    | acq t1' =>
      have h1 : held2 s1 false s2 b2 s1 = false := by simp [held2, h12]
      have hf : (fun x => x == s1 || held2 s1 false s2 b2 x) = held2 s1 true s2 b2 := by
        funext x
        simp only [held2, Bool.and_true]
        cases hx : x == s1 <;> cases hx2 : x == s2 <;> simp
      show lockValidFrom (held2 s1 false s2 b2) ((true, Event.acquire s1) :: zs') = true
      simp only [lockValidFrom, lockStep, h1, Bool.false_eq_true, if_false]
      rw [hf]
      exact ih t1' t2
  | @right y xs' ys' zs' h' ih =>
    intro b1 b2 t1 t2
    cases t2 with
    | rel =>
      have hf : (fun x => if x == s2 then false else held2 s1 b1 s2 true x) =
          held2 s1 b1 s2 false := by
        funext x
        by_cases hx : x = s2
        · subst hx
          simp [held2, h21]
        · have hx' : (x == s2) = false := beq_eq_false_iff_ne.mpr hx
          simp [held2, hx']
      have hred : lockValidFrom (held2 s1 b1 s2 true) ((false, Event.release s2) :: zs') =
          lockValidFrom (fun x => if x == s2 then false else held2 s1 b1 s2 true x) zs' := rfl
      show lockValidFrom (held2 s1 b1 s2 true) ((false, Event.release s2) :: zs') = true
      rw [hred, hf]
      exact ih t1 TaskRem.fin
    | drv dc t2' =>
      exact ih t1 t2'
    | acq t2' =>
      have h1 : held2 s1 b1 s2 false s2 = false := by simp [held2, h21]
      have hf : (fun x => x == s2 || held2 s1 b1 s2 false x) = held2 s1 b1 s2 true := by
        funext x
        simp only [held2, Bool.and_true, Bool.and_false, Bool.or_false]
        cases hx : x == s1 <;> cases hx2 : x == s2 <;> simp
      show lockValidFrom (held2 s1 b1 s2 false) ((false, Event.acquire s2) :: zs') = true
      simp only [lockValidFrom, lockStep, h1, Bool.false_eq_true, if_false]
      rw [hf]
      exact ih t1 t2'

theorem execTrace_taskRem (s : String) (ds : List DriverCall) :
    TaskRem s (execTrace s ds) false := by
  refine TaskRem.acq ?_
  induction ds with
  | nil => exact TaskRem.rel
  | cons dc ds ih => exact TaskRem.drv dc ih

theorem held2_false_false (s1 s2 : String) : held2 s1 false s2 false = noneHeld := by
  funext x
  simp [held2, noneHeld]

theorem disjoint_no_block {s1 s2 : String} (hne : s1 ≠ s2) (ds1 ds2 : List DriverCall)
    (zs : List (Bool × Event))
    (h : Interleaves (execTrace s1 ds1) (execTrace s2 ds2) zs) :
    lockValidFrom noneHeld zs = true := by
  have hmain := disjoint_no_block_aux hne h (execTrace_taskRem s1 ds1) (execTrace_taskRem s2 ds2)
  rwa [held2_false_false] at hmain



/-! ## Dispatcher lemmas -/

/-- If the computation returns normally, every driver call it made returned
normally. -/
def cleanOk {α : Type} (x : DM α) : Prop :=
  ∀ a, x.1 = Except.ok a → ∀ p ∈ x.2, p.2 = true

/-- If the computation returns a response although some driver call raised,
the response's `error` slot is populated. -/
def errIfFailed (x : DM ToolResultResponse) : Prop :=
  ∀ r, x.1 = Except.ok r → (∃ p ∈ x.2, p.2 = false) → r.error.isSome = true

theorem cleanOk_callD {α : Type} (c : DriverCall) (r : Except String α) :
    cleanOk (callD c r) := by
  intro a ha p hp
  cases r with
  | ok v =>
    simp only [callD, exOk, List.mem_singleton] at hp
    rw [hp]
  | error e => simp [callD] at ha

theorem errIfFailed_pure (r : ToolResultResponse) : errIfFailed (DM.pure r) := by
  intro b hb hfail
  obtain ⟨p, hp, _⟩ := hfail
  simp [DM.pure] at hp

theorem errIfFailed_bind {α : Type} {x : DM α} {k : α → DM ToolResultResponse}
    (hx : cleanOk x) (hk : ∀ a, errIfFailed (k a)) : errIfFailed (DM.bind x k) := by
  intro r hr hfail
  obtain ⟨p, hp, hpf⟩ := hfail
  cases hx1 : x.1 with
  | ok a =>
    simp only [DM.bind, hx1] at hr hp
    rcases List.mem_append.mp hp with hmem | hmem
    · have hclean := hx a hx1 p hmem
      rw [hclean] at hpf
      cases hpf
    · exact hk a r hr ⟨p, hmem, hpf⟩
  | error e =>
    simp only [DM.bind, hx1] at hr
    cases hr

theorem errIfFailed_tryCatch_pure {x : DM ToolResultResponse}
    (hx : errIfFailed x) (f : String → ToolResultResponse)
    (hf : ∀ e, (f e).error.isSome = true) :
    errIfFailed (DM.tryCatch x (fun e => DM.pure (f e))) := by
  intro r hr hfail
  obtain ⟨p, hp, hpf⟩ := hfail
  cases hx1 : x.1 with
  | ok a =>
    simp only [DM.tryCatch, hx1] at hr hp
    cases hr
    exact hx _ hx1 ⟨p, hp, hpf⟩
  | error e =>
    simp only [DM.tryCatch, hx1, DM.pure] at hr
    cases hr
    exact hf e

theorem dispatch_missing (d : Driver) (req : BrowserActionRequest) (m : String)
    (h : missingCheck req = some m) :
    dispatchAction d req = (Except.ok { error := some m }, []) := by
  unfold missingCheck at h
  unfold dispatchAction
  by_cases h1 : req.action = "go_to_url"
  · rw [if_pos h1] at h ⊢
    by_cases hc : pyFalsy req.url = true
    · rw [if_pos hc] at h ⊢
      injection h with hm
      subst hm
      rfl
    · rw [if_neg hc] at h
      exact Option.noConfusion h
  rw [if_neg h1] at h ⊢
  by_cases h2 : req.action = "go_back"
  · rw [h2] at h
    simp at h
  rw [if_neg h2]
  by_cases h3 : req.action = "refresh"
  · rw [h3] at h
    simp at h
  rw [if_neg h3]
  by_cases h4 : req.action = "web_search"
  · rw [if_pos h4] at h ⊢
    by_cases hc : pyFalsy req.query = true
    · rw [if_pos hc] at h ⊢
      injection h with hm
      subst hm
      rfl
    · rw [if_neg hc] at h
      exact Option.noConfusion h
  rw [if_neg h4] at h ⊢
  by_cases h5 : req.action = "click_element"
  · rw [if_pos h5] at h ⊢
    by_cases hc : req.index.isNone = true
    · rw [if_pos hc] at h ⊢
      injection h with hm
      subst hm
      rfl
    · rw [if_neg hc] at h
      exact Option.noConfusion h
  rw [if_neg h5] at h ⊢
  by_cases h6 : req.action = "input_text"
  · rw [if_pos h6] at h ⊢
    by_cases hc : (req.index.isNone || pyFalsy req.text) = true
    · rw [if_pos hc] at h ⊢
      injection h with hm
      subst hm
      rfl
    · rw [if_neg hc] at h
      exact Option.noConfusion h
  rw [if_neg h6] at h ⊢
  by_cases h7 : req.action = "scroll_down" ∨ req.action = "scroll_up"
  · rcases h7 with h7 | h7 <;> (rw [h7] at h; simp at h)
  rw [if_neg h7]
  by_cases h8 : req.action = "scroll_to_text"
  · rw [if_pos h8] at h ⊢
    by_cases hc : pyFalsy req.text = true
    · rw [if_pos hc] at h ⊢
      injection h with hm
      subst hm
      rfl
    · rw [if_neg hc] at h
      exact Option.noConfusion h
  rw [if_neg h8] at h ⊢
  by_cases h9 : req.action = "send_keys"
  · rw [if_pos h9] at h ⊢
    by_cases hc : pyFalsy req.keys = true
    · rw [if_pos hc] at h ⊢
      injection h with hm
      subst hm
      rfl
    · rw [if_neg hc] at h
      exact Option.noConfusion h
  rw [if_neg h9] at h ⊢
  by_cases h10 : req.action = "get_dropdown_options"
  · rw [if_pos h10] at h ⊢
    by_cases hc : req.index.isNone = true
    · rw [if_pos hc] at h ⊢
      injection h with hm
      subst hm
      rfl
    · rw [if_neg hc] at h
      exact Option.noConfusion h
  rw [if_neg h10] at h ⊢
  by_cases h11 : req.action = "select_dropdown_option"
  · rw [if_pos h11] at h ⊢
    by_cases hc : (req.index.isNone || pyFalsy req.text) = true
    · rw [if_pos hc] at h ⊢
      injection h with hm
      subst hm
      rfl
    · rw [if_neg hc] at h
      exact Option.noConfusion h
  rw [if_neg h11] at h ⊢
  by_cases h12 : req.action = "extract_content"
  · rw [if_pos h12] at h ⊢
    by_cases hc : pyFalsy req.goal = true
    · rw [if_pos hc] at h ⊢
      injection h with hm
      subst hm
      rfl
    · rw [if_neg hc] at h
      exact Option.noConfusion h
  rw [if_neg h12] at h ⊢
  by_cases h13 : req.action = "switch_tab"
  · rw [if_pos h13] at h ⊢
    by_cases hc : req.tab_id.isNone = true
    · rw [if_pos hc] at h ⊢
      injection h with hm
      subst hm
      rfl
    · rw [if_neg hc] at h
      exact Option.noConfusion h
  rw [if_neg h13] at h ⊢
  by_cases h14 : req.action = "open_tab"
  · rw [if_pos h14] at h ⊢
    by_cases hc : pyFalsy req.url = true
    · rw [if_pos hc] at h ⊢
      injection h with hm
      subst hm
      rfl
    · rw [if_neg hc] at h
      exact Option.noConfusion h
  rw [if_neg h14] at h ⊢
  exact Option.noConfusion h

theorem dispatch_errIfFailed (d : Driver) (req : BrowserActionRequest) :
    errIfFailed (dispatchAction d req) := by
  unfold dispatchAction
  by_cases h1 : req.action = "go_to_url"
  · rw [if_pos h1]
    split
    · exact errIfFailed_pure _
    · refine errIfFailed_bind (cleanOk_callD _ _) fun _ => ?_
      refine errIfFailed_bind (cleanOk_callD _ _) fun _ => ?_
      refine errIfFailed_bind (cleanOk_callD _ _) fun _ => ?_
      exact errIfFailed_pure _
  rw [if_neg h1]
  by_cases h2 : req.action = "go_back"
  · rw [if_pos h2]
    refine errIfFailed_bind (cleanOk_callD _ _) fun _ => ?_
    exact errIfFailed_pure _
  rw [if_neg h2]
  by_cases h3 : req.action = "refresh"
  · rw [if_pos h3]
    refine errIfFailed_bind (cleanOk_callD _ _) fun _ => ?_
    exact errIfFailed_pure _
  rw [if_neg h3]
  by_cases h4 : req.action = "web_search"
  · rw [if_pos h4]
    split
    · exact errIfFailed_pure _
    · refine errIfFailed_bind (cleanOk_callD _ _) fun _ => ?_
      refine errIfFailed_bind (cleanOk_callD _ _) fun _ => ?_
      refine errIfFailed_bind (cleanOk_callD _ _) fun _ => ?_
      refine errIfFailed_tryCatch_pure ?_ _ fun e => rfl
      refine errIfFailed_bind (cleanOk_callD _ _) fun _ => ?_
      exact errIfFailed_pure _
  rw [if_neg h4]
  by_cases h5 : req.action = "click_element"
  · rw [if_pos h5]
    split
    · exact errIfFailed_pure _
    · refine errIfFailed_bind (cleanOk_callD _ _) fun a => ?_
      cases a with
      | none => exact errIfFailed_pure _
      | some el =>
        refine errIfFailed_tryCatch_pure ?_ _ fun e => rfl
        refine errIfFailed_bind (cleanOk_callD _ _) fun _ => ?_
        exact errIfFailed_pure _
  rw [if_neg h5]
  by_cases h6 : req.action = "input_text"
  · rw [if_pos h6]
    split
    · exact errIfFailed_pure _
    · refine errIfFailed_bind (cleanOk_callD _ _) fun a => ?_
      cases a with
      | none => exact errIfFailed_pure _
      | some el =>
        refine errIfFailed_tryCatch_pure ?_ _ fun e => rfl
        refine errIfFailed_bind (cleanOk_callD _ _) fun _ => ?_
        exact errIfFailed_pure _
  rw [if_neg h6]
  by_cases h7 : req.action = "scroll_down" ∨ req.action = "scroll_up"
  · rw [if_pos h7]
    refine errIfFailed_bind (cleanOk_callD _ _) fun _ => ?_
    exact errIfFailed_pure _
  rw [if_neg h7]
  by_cases h8 : req.action = "scroll_to_text"
  · rw [if_pos h8]
    split
    · exact errIfFailed_pure _
    · refine errIfFailed_bind (cleanOk_callD _ _) fun _ => ?_
      refine errIfFailed_tryCatch_pure ?_ _ fun e => rfl
      refine errIfFailed_bind (cleanOk_callD _ _) fun _ => ?_
      exact errIfFailed_pure _
  rw [if_neg h8]
  by_cases h9 : req.action = "send_keys"
  · rw [if_pos h9]
    split
    · exact errIfFailed_pure _
    · refine errIfFailed_bind (cleanOk_callD _ _) fun _ => ?_
      refine errIfFailed_bind (cleanOk_callD _ _) fun _ => ?_
      exact errIfFailed_pure _
  rw [if_neg h9]
  by_cases h10 : req.action = "get_dropdown_options"
  · rw [if_pos h10]
    split
    · exact errIfFailed_pure _
    · refine errIfFailed_bind (cleanOk_callD _ _) fun a => ?_
      cases a with
      | none => exact errIfFailed_pure _
      | some el =>
        refine errIfFailed_bind (cleanOk_callD _ _) fun _ => ?_
        refine errIfFailed_bind (cleanOk_callD _ _) fun _ => ?_
        exact errIfFailed_pure _
  rw [if_neg h10]
  by_cases h11 : req.action = "select_dropdown_option"
  · rw [if_pos h11]
    split
    · exact errIfFailed_pure _
    · refine errIfFailed_bind (cleanOk_callD _ _) fun a => ?_
      cases a with
      | none => exact errIfFailed_pure _
      | some el =>
        refine errIfFailed_bind (cleanOk_callD _ _) fun _ => ?_
        refine errIfFailed_bind (cleanOk_callD _ _) fun _ => ?_
        exact errIfFailed_pure _
  rw [if_neg h11]
  by_cases h12 : req.action = "extract_content"
  · rw [if_pos h12]
    split
    · exact errIfFailed_pure _
    · refine errIfFailed_bind (cleanOk_callD _ _) fun _ => ?_
      refine errIfFailed_bind (cleanOk_callD _ _) fun _ => ?_
      split
      · refine errIfFailed_bind (cleanOk_callD _ _) fun _ => ?_
        exact errIfFailed_pure _
      split
      · refine errIfFailed_bind (cleanOk_callD _ _) fun _ => ?_
        exact errIfFailed_pure _
      · refine errIfFailed_bind (cleanOk_callD _ _) fun _ => ?_
        exact errIfFailed_pure _
  rw [if_neg h12]
  by_cases h13 : req.action = "switch_tab"
  · rw [if_pos h13]
    split
    · exact errIfFailed_pure _
    · refine errIfFailed_bind (cleanOk_callD _ _) fun _ => ?_
      refine errIfFailed_bind (cleanOk_callD _ _) fun _ => ?_
      refine errIfFailed_bind (cleanOk_callD _ _) fun _ => ?_
      exact errIfFailed_pure _
  rw [if_neg h13]
  by_cases h14 : req.action = "open_tab"
  · rw [if_pos h14]
    split
    · exact errIfFailed_pure _
    · refine errIfFailed_bind (cleanOk_callD _ _) fun _ => ?_
      exact errIfFailed_pure _
  rw [if_neg h14]
  by_cases h15 : req.action = "close_tab"
  · rw [if_pos h15]
    refine errIfFailed_bind (cleanOk_callD _ _) fun _ => ?_
    exact errIfFailed_pure _
  rw [if_neg h15]
  by_cases h16 : req.action = "wait"
  · rw [if_pos h16]
    refine errIfFailed_bind (cleanOk_callD _ _) fun _ => ?_
    exact errIfFailed_pure _
  rw [if_neg h16]
  exact errIfFailed_pure _



/-! ## Claims: dispatcher validation and vocabulary -/

/-- An all-succeeding driver oracle, used to instantiate theorems at concrete
inputs. -/
def dEx : Driver where
  getCurrentPage := Except.ok ()
  goto := fun _ => Except.ok ()
  waitForLoadState := Except.ok ()
  goBack := Except.ok ()
  refreshPage := Except.ok ()
  searchScrape := Except.ok []
  getDomElementByIndex := fun _ => Except.ok none
  clickElementNode := fun _ => Except.ok none
  inputTextElementNode := fun _ _ => Except.ok ()
  executeJavascript := fun _ => Except.ok ()
  scrollToTextScript := fun _ => Except.ok ()
  keyboardPress := fun _ => Except.ok ()
  dropdownOptionsScript := fun _ => Except.ok none
  selectOption := fun _ _ => Except.ok ()
  pageContent := Except.ok ""
  pageTitle := Except.ok "T"
  linksScript := Except.ok []
  bodyInnerText := Except.ok ""
  switchToTab := fun _ => Except.ok ()
  createNewTab := fun _ => Except.ok ()
  closeCurrentTab := Except.ok ()
  sleep := fun _ => Except.ok ()

/-- A driver whose page lookup raises. -/
def dFail : Driver := { dEx with getCurrentPage := Except.error "boom" }

/-- A service state with one registered session. -/
def stEx : ServiceState :=
  { sessions := [("s", 0)],
    objs := [(0, { contextOpen := true, browserOpen := true })], nextObj := 1 }

/-- Claim C3: a request whose action kind requires a field that is missing is
answered by the validation error of that kind with no driver call attempted
(the driver-call trace is empty), and for `go_to_url` the message is exactly
the one the spec quotes. -/
theorem claim_C3 (d : Driver) (req : BrowserActionRequest) (m : String)
    (h : missingCheck req = some m) :
    dispatchAction d req =
      (Except.ok { output := none, error := some m, base64_image := none,
                   results := none }, []) ∧
    (req.action = "go_to_url" → m = "URL is required for 'go_to_url' action") := by
  refine ⟨dispatch_missing d req m h, fun ha => ?_⟩
  unfold missingCheck at h
  rw [if_pos ha] at h
  by_cases hc : pyFalsy req.url = true
  · rw [if_pos hc] at h
    injection h with hm
    exact hm.symm
  · rw [if_neg hc] at h
    exact Option.noConfusion h

theorem claim_C3_witness :
    dispatchAction dEx { action := "go_to_url" } =
      (Except.ok { output := none,
                   error := some "URL is required for 'go_to_url' action",
                   base64_image := none, results := none }, []) ∧
    ("URL is required for 'go_to_url' action" : String) =
      "URL is required for 'go_to_url' action" := by
  have h := claim_C3 dEx { action := "go_to_url" }
    "URL is required for 'go_to_url' action" rfl
  exact ⟨h.1, h.2 rfl⟩

/-- Claim C4: a request whose action kind is not in the recognized vocabulary
gets `error = "Unknown action: <kind>"`, an absent `output`, no driver call,
and a normal return (no exception). -/
theorem claim_C4 (d : Driver) (req : BrowserActionRequest)
    (h : req.action ∉ recognizedActions) :
    dispatchAction d req =
      (Except.ok { output := none, error := some ("Unknown action: " ++ req.action),
                   base64_image := none, results := none }, []) := by
  simp only [recognizedActions, List.mem_cons, List.not_mem_nil, or_false, not_or] at h
  obtain ⟨h1, h2, h3, h4, h5, h6, h7, h8, h9, h10, h11, h12, h13, h14, h15, h16, h17⟩ := h
  simp [dispatchAction, h1, h2, h3, h4, h5, h6, h7, h8, h9, h10, h11, h12, h13, h14, h15,
    h16, h17, DM.pure]

theorem claim_C4_witness :
    dispatchAction dEx { action := "bogus" } =
      (Except.ok { output := none, error := some "Unknown action: bogus",
                   base64_image := none, results := none }, []) := by
  have h := claim_C4 dEx { action := "bogus" } (by decide)
  exact h.trans rfl

/-- Claim C9: for every action kind requiring a string field, a present but
empty string is rejected exactly like an absent field (the dispatcher result
is identical), while the integer `index` field is only rejected when absent:
`index = 0` passes validation and the element lookup driver call is made. -/
theorem claim_C9 (d : Driver) (u : Option String) (i : Option Int) (t : Option String)
    (sa : Option Int) (tb : Option Int) (q : Option String) (g : Option String)
    (k : Option String) (s : Option Int) :
    (dispatchAction d ⟨"go_to_url", some "", i, t, sa, tb, q, g, k, s⟩ =
      dispatchAction d ⟨"go_to_url", none, i, t, sa, tb, q, g, k, s⟩) ∧
    (dispatchAction d ⟨"open_tab", some "", i, t, sa, tb, q, g, k, s⟩ =
      dispatchAction d ⟨"open_tab", none, i, t, sa, tb, q, g, k, s⟩) ∧
    (dispatchAction d ⟨"input_text", u, i, some "", sa, tb, q, g, k, s⟩ =
      dispatchAction d ⟨"input_text", u, i, none, sa, tb, q, g, k, s⟩) ∧
    (dispatchAction d ⟨"scroll_to_text", u, i, some "", sa, tb, q, g, k, s⟩ =
      dispatchAction d ⟨"scroll_to_text", u, i, none, sa, tb, q, g, k, s⟩) ∧
    (dispatchAction d ⟨"select_dropdown_option", u, i, some "", sa, tb, q, g, k, s⟩ =
      dispatchAction d ⟨"select_dropdown_option", u, i, none, sa, tb, q, g, k, s⟩) ∧
    (dispatchAction d ⟨"web_search", u, i, t, sa, tb, some "", g, k, s⟩ =
      dispatchAction d ⟨"web_search", u, i, t, sa, tb, none, g, k, s⟩) ∧
    (dispatchAction d ⟨"extract_content", u, i, t, sa, tb, q, some "", k, s⟩ =
      dispatchAction d ⟨"extract_content", u, i, t, sa, tb, q, none, k, s⟩) ∧
    (dispatchAction d ⟨"send_keys", u, i, t, sa, tb, q, g, some "", s⟩ =
      dispatchAction d ⟨"send_keys", u, i, t, sa, tb, q, g, none, s⟩) ∧
    (((dispatchAction d ⟨"click_element", u, some 0, t, sa, tb, q, g, k, s⟩).2.map
        Prod.fst).head? = some (DriverCall.getDomElementByIndex 0)) ∧
    (dispatchAction d ⟨"click_element", u, none, t, sa, tb, q, g, k, s⟩ =
      (Except.ok { output := none,
                   error := some "Index is required for 'click_element' action",
                   base64_image := none, results := none }, [])) := by
  refine ⟨rfl, rfl, rfl, rfl, rfl, rfl, rfl, rfl, ?_, rfl⟩
  cases hdom : d.getDomElementByIndex 0 with
  | ok el => simp [dispatchAction, callD, DM.bind, hdom]
  | error e => simp [dispatchAction, callD, DM.bind, hdom]



/-! ## Claims: error protocol, extraction, search -/

/-- Claim C2: an `execute` request on a registered session never raises: the
handler returns a normal HTTP reply carrying a `ToolResultResponse`, the
service state (hence the registry) is unchanged and the session still
registered, and every failure - a missing required field, or any driver call
that raised during the action - leaves the response with `error` populated. -/
theorem claim_C2 (st : ServiceState) (sid : String) (o : Nat) (d : Driver)
    (req : BrowserActionRequest) (hreg : dictGet st.sessions sid = some o) :
    (executeOp st sid d req).1 = st ∧
    (executeOp st sid d req).2 = HttpOutcome.ok (runDispatch d req).1 ∧
    dictGet ((executeOp st sid d req).1).sessions sid = some o ∧
    ((missingCheck req).isSome = true → ((runDispatch d req).1).error.isSome = true) ∧
    ((∃ p ∈ (dispatchAction d req).2, p.2 = false) →
      ((runDispatch d req).1).error.isSome = true) := by
  refine ⟨by simp [executeOp, hreg], by simp [executeOp, hreg, execute_action], by simp [executeOp, hreg, hreg], ?_, ?_⟩
  · intro hmiss
    obtain ⟨m, hm⟩ := Option.isSome_iff_exists.mp hmiss
    have hd := dispatch_missing d req m hm
    simp [runDispatch, hd]
  · intro hfail
    cases hx : (dispatchAction d req).1 with
    | ok r =>
      have := dispatch_errIfFailed d req r hx hfail
      simp [runDispatch, hx, this]
    | error e => simp [runDispatch, hx]

theorem claim_C2_witness :
    (executeOp stEx "s" dFail { action := "go_to_url", url := some "http://x" }).1 = stEx ∧
    ((runDispatch dFail { action := "go_to_url", url := some "http://x" }).1).error.isSome
      = true := by
  have h := claim_C2 stEx "s" 0 dFail { action := "go_to_url", url := some "http://x" } rfl
  exact ⟨h.1, h.2.2.2.2 ⟨(DriverCall.getCurrentPage, false), by decide, rfl⟩⟩

/-- Claim C7: `extract_content` with a goal present follows the heuristic: a
goal mentioning "title" reports the page title, otherwise one mentioning
"links" reports the anchor text/href pairs, otherwise the page's visible text
truncated to 2000 characters is reported. -/
theorem claim_C7 (d : Driver) (req : BrowserActionRequest) (g ttl btext c : String)
    (L : List LinkRec)
    (hact : req.action = "extract_content") (hgoal : req.goal = some g) (hg : g ≠ "")
    (hpage : d.getCurrentPage = Except.ok ()) (hcontent : d.pageContent = Except.ok c)
    (htitle : d.pageTitle = Except.ok ttl) (hlinks : d.linksScript = Except.ok L)
    (hbody : d.bodyInnerText = Except.ok btext) :
    (strHasSub (pyLower g) "title" = true →
      (dispatchAction d req).1 =
        Except.ok { output := some ("Page title: " ++ ttl) }) ∧
    (strHasSub (pyLower g) "title" = false → strHasSub (pyLower g) "links" = true →
      (dispatchAction d req).1 =
        Except.ok { output := some ("Extracted links: " ++ dumpsLinks L) }) ∧
    (strHasSub (pyLower g) "title" = false → strHasSub (pyLower g) "links" = false →
      (dispatchAction d req).1 =
        Except.ok { output := some ("Page content: " ++ btext.take 2000 ++ "...") }) := by
  refine ⟨fun h1 => ?_, fun h1 h2 => ?_, fun h1 h2 => ?_⟩ <;>
    simp [dispatchAction, pyFalsy, hact, hgoal, hg, hpage, hcontent, htitle, hlinks,
      hbody, h1, callD, DM.bind, DM.pure, exOk, *]

theorem claim_C7_witness :
    (dispatchAction dEx { action := "extract_content", goal := some "get the title" }).1 =
      Except.ok { output := some "Page title: T" } := by
  have h := claim_C7 dEx { action := "extract_content", goal := some "get the title" }
    "get the title" "T" "" "" [] rfl rfl (by decide) rfl rfl rfl rfl rfl
  exact (h.1 (by decide)).trans rfl

/-- Claim C8: `web_search` with a query present first navigates to the Google
results page for the query (the first driver calls are the page lookup, the
`goto` of the search URL and the load wait), returns at most five structured
results when the scrape script succeeds, and when the scrape script raises
after navigation succeeded it returns both `output` (successful navigation)
and `error` (the scrape failure). -/
theorem claim_C8 (d : Driver) (req : BrowserActionRequest) (q : String)
    (hact : req.action = "web_search") (hq : req.query = some q) (hqne : q ≠ "")
    (hp : d.getCurrentPage = Except.ok ())
    (hgoto : d.goto ("https://www.google.com/search?q=" ++ q) = Except.ok ())
    (hw : d.waitForLoadState = Except.ok ()) :
    (((dispatchAction d req).2.map Prod.fst).take 3 =
      [DriverCall.getCurrentPage,
       DriverCall.goto ("https://www.google.com/search?q=" ++ q),
       DriverCall.waitForLoadState]) ∧
    (∀ hits, d.searchScrape = Except.ok hits →
      (dispatchAction d req).1 =
        Except.ok { output := some ("Search results for '" ++ q ++ "'"),
                    results := some (hits.take 5) } ∧
      (hits.take 5).length ≤ 5) ∧
    (∀ e, d.searchScrape = Except.error e →
      (dispatchAction d req).1 =
        Except.ok { output := some ("Navigated to search results for '" ++ q ++
            "' but couldn't extract them"), error := some e }) := by
  refine ⟨?_, fun hits hsc => ⟨?_, ?_⟩, fun e hsc => ?_⟩
  · cases hsc : d.searchScrape with
    | ok hits =>
      simp [dispatchAction, pyFalsy, hact, hq, hqne, hp, hgoto, hw, hsc,
        callD, DM.bind, DM.pure, DM.tryCatch, exOk]
    | error e =>
      simp [dispatchAction, pyFalsy, hact, hq, hqne, hp, hgoto, hw, hsc,
        callD, DM.bind, DM.pure, DM.tryCatch, exOk]
  · simp [dispatchAction, pyFalsy, hact, hq, hqne, hp, hgoto, hw, hsc,
      callD, DM.bind, DM.pure, DM.tryCatch, exOk]
  · exact le_trans (List.length_take_le 5 hits) (le_refl 5)
  · simp [dispatchAction, pyFalsy, hact, hq, hqne, hp, hgoto, hw, hsc,
      callD, DM.bind, DM.pure, DM.tryCatch, exOk]

theorem claim_C8_witness :
    ((dispatchAction dEx { action := "web_search", query := some "cats" }).2.map
        Prod.fst).take 3 =
      [DriverCall.getCurrentPage, DriverCall.goto "https://www.google.com/search?q=cats",
       DriverCall.waitForLoadState] ∧
    (dispatchAction dEx { action := "web_search", query := some "cats" }).1 =
      Except.ok { output := some "Search results for 'cats'",
                  results := some ([] : List SearchHit) } := by
  have h := claim_C8 dEx { action := "web_search", query := some "cats" } "cats"
    rfl rfl (by decide) rfl rfl rfl
  refine ⟨h.1.trans rfl, ((h.2.1 [] rfl).1).trans rfl⟩



/-! ## Registry dictionary lemmas; claims C5 and C10 -/

theorem dictGet_del_ne {α β : Type} [DecidableEq α] (m : List (α × β)) {a b : α}
    (h : a ≠ b) : dictGet (dictDel m a) b = dictGet m b := by
  induction m with
  | nil => rfl
  | cons p m ih =>
    obtain ⟨x, y⟩ := p
    by_cases hx : x = a
    · subst hx
      have hxb : ¬x = b := h
      simp only [dictDel, List.filter_cons, bne_self_eq_false, Bool.false_eq_true,
        if_false, dictGet]
      rw [if_neg hxb]
      exact ih
    · have : (x != a) = true := bne_iff_ne.mpr hx
      simp only [dictDel, List.filter_cons, this, if_true, dictGet]
      by_cases hxb : x = b
      · rw [if_pos hxb, if_pos hxb]
      · rw [if_neg hxb, if_neg hxb]
        exact ih

theorem dictGet_del_self {α β : Type} [DecidableEq α] (m : List (α × β)) (a : α) :
    dictGet (dictDel m a) a = none := by
  induction m with
  | nil => rfl
  | cons p m ih =>
    obtain ⟨x, y⟩ := p
    by_cases hx : x = a
    · subst hx
      simp only [dictDel, List.filter_cons, bne_self_eq_false, Bool.false_eq_true,
        if_false]
      exact ih
    · have : (x != a) = true := bne_iff_ne.mpr hx
      simp only [dictDel, List.filter_cons, this, if_true, dictGet]
      rw [if_neg hx]
      exact ih

theorem dictGet_set_self {α β : Type} [DecidableEq α] (m : List (α × β)) (a : α) (b : β) :
    dictGet (dictSet m a b) a = some b := by
  simp [dictSet, dictGet]

theorem dictGet_set_ne {α β : Type} [DecidableEq α] (m : List (α × β)) {a c : α} (b : β)
    (h : a ≠ c) : dictGet (dictSet m a b) c = dictGet m c := by
  simp only [dictSet, dictGet]
  rw [if_neg h]
  exact dictGet_del_ne m h

theorem mem_dictDel {α β : Type} [DecidableEq α] {m : List (α × β)} {a : α}
    {p : α × β} (h : p ∈ dictDel m a) : p ∈ m ∧ p.1 ≠ a := by
  have := List.mem_filter.mp h
  exact ⟨this.1, bne_iff_ne.mp this.2⟩

theorem dictGet_mem {α β : Type} [DecidableEq α] {m : List (α × β)} {a : α} {b : β}
    (h : dictGet m a = some b) : (a, b) ∈ m := by
  induction m with
  | nil => exact Option.noConfusion h
  | cons p m ih =>
    obtain ⟨x, y⟩ := p
    by_cases hx : x = a
    · subst hx
      simp only [dictGet, if_pos rfl] at h
      injection h with hb
      subst hb
      exact List.mem_cons_self _ _
    · simp only [dictGet, if_neg hx] at h
      exact List.mem_cons_of_mem _ (ih h)

theorem dictGet_markContextClosed_ne (m : List (Nat × SessionRec)) {o o' : Nat}
    (h : o ≠ o') : dictGet (markContextClosed m o) o' = dictGet m o' := by
  unfold markContextClosed
  cases hget : dictGet m o with
  | none => rfl
  | some r => exact dictGet_set_ne m _ h

theorem dictGet_markBrowserClosed_ne (m : List (Nat × SessionRec)) {o o' : Nat}
    (h : o ≠ o') : dictGet (markBrowserClosed m o) o' = dictGet m o' := by
  unfold markBrowserClosed
  cases hget : dictGet m o with
  | none => rfl
  | some r => exact dictGet_set_ne m _ h

/-- Claim C5: closing a registered session closes the context strictly before
the browser (every attempted-teardown trace starts with the context close and
the browser close is only ever attempted after it); when both closes return,
the reply is success and the entry is removed from the registry; when either
close raises, a 500 server error is surfaced and the identifier-to-object
mapping is unchanged. -/
theorem claim_C5 (st : ServiceState) (sid : String) (o : Nat)
    (ctxRes brRes : Except String Unit) (hreg : dictGet st.sessions sid = some o) :
    ((close_session st sid ctxRes brRes).2.2 = [CloseCall.closeContext] ∨
     (close_session st sid ctxRes brRes).2.2 =
       [CloseCall.closeContext, CloseCall.closeBrowser]) ∧
    (ctxRes = Except.ok () → brRes = Except.ok () →
      (close_session st sid ctxRes brRes).2.1 = HttpOutcome.ok "Session closed" ∧
      dictGet ((close_session st sid ctxRes brRes).1).sessions sid = none) ∧
    (∀ e, ctxRes = Except.error e →
      (close_session st sid ctxRes brRes).2.1 =
        HttpOutcome.httpError 500 ("Failed to close session: " ++ e) ∧
      ((close_session st sid ctxRes brRes).1).sessions = st.sessions) ∧
    (∀ e, ctxRes = Except.ok () → brRes = Except.error e →
      (close_session st sid ctxRes brRes).2.1 =
        HttpOutcome.httpError 500 ("Failed to close session: " ++ e) ∧
      ((close_session st sid ctxRes brRes).1).sessions = st.sessions) := by
  cases ctxRes with
  | error e =>
    refine ⟨Or.inl ?_, ?_, ?_, ?_⟩
    · simp [close_session, hreg]
    · intro hc; exact Except.noConfusion hc
    · intro e' he
      injection he with hee
      subst hee
      constructor <;> simp [close_session, hreg]
    · intro e' hc; exact Except.noConfusion hc
  | ok u =>
    obtain ⟨⟩ := u
    cases brRes with
    | error e =>
      refine ⟨Or.inr ?_, ?_, ?_, ?_⟩
      · simp [close_session, hreg]
      · intro _ hb; exact Except.noConfusion hb
      · intro e' he; exact Except.noConfusion he
      · intro e' _ hb
        injection hb with hee
        subst hee
        constructor <;> simp [close_session, hreg]
    | ok v =>
      obtain ⟨⟩ := v
      refine ⟨Or.inr ?_, ?_, ?_, ?_⟩
      · simp [close_session, hreg]
      · intro _ _
        refine ⟨by simp [close_session, hreg], ?_⟩
        simp only [close_session, hreg]
        exact dictGet_del_self _ _
      · intro e' he; exact Except.noConfusion he
      · intro e' _ hb; exact Except.noConfusion hb

theorem claim_C5_witness :
    (close_session stEx "s" (Except.ok ()) (Except.ok ())).2.1 =
      HttpOutcome.ok "Session closed" ∧
    dictGet ((close_session stEx "s" (Except.ok ()) (Except.ok ())).1).sessions "s" =
      none := by
  have h := claim_C5 stEx "s" 0 (Except.ok ()) (Except.ok ()) rfl
  exact h.2.1 rfl rfl

/-- Claim C10: an `execute` call leaves the whole service state - in
particular the identifier-to-session mapping - unchanged, whatever the driver
does; `create` (when the engine launch succeeds) only inserts its fresh
entry; `close` removes its entry exactly when the session is registered and
both teardown calls return, and otherwise leaves the mapping unchanged. -/
theorem claim_C10 (st : ServiceState) (sid : String) (d : Driver)
    (req : BrowserActionRequest) (ctxRes brRes : Except String Unit) :
    (executeOp st sid d req).1 = st ∧
    (create_session st sid true).1.sessions = dictSet st.sessions sid st.nextObj ∧
    (create_session st sid false).1.sessions = st.sessions ∧
    ((close_session st sid ctxRes brRes).1.sessions =
      if ((dictGet st.sessions sid).isSome && exOk ctxRes && exOk brRes) = true
      then dictDel st.sessions sid else st.sessions) := by
  refine ⟨?_, rfl, rfl, ?_⟩
  · cases h : dictGet st.sessions sid <;> simp [executeOp, h]
  · cases hreg : dictGet st.sessions sid with
    | none => cases ctxRes <;> cases brRes <;> simp [close_session, hreg, exOk]
    | some o => cases ctxRes <;> cases brRes <;> simp [close_session, hreg, exOk]



/-! ## Claim C6: the registry liveness invariant -/

/-- The induction invariant of reachable states: every registered session
maps to a live (fully open) object below the allocation counter, and no two
registered identifiers share a session object. -/
def strongInv (st : ServiceState) : Prop :=
  (∀ p ∈ st.sessions, p.2 < st.nextObj ∧
    dictGet st.objs p.2 = some { contextOpen := true, browserOpen := true }) ∧
  (st.sessions.map Prod.snd).Nodup

theorem strongInv_init : strongInv initState := by
  constructor
  · intro p hp
    simp [initState] at hp
  · simp [initState]

theorem sessions_del_sublist (m : List (String × Nat)) (sid : String) :
    ((dictDel m sid).map Prod.snd).Sublist (m.map Prod.snd) :=
  (List.filter_sublist m).map Prod.snd

theorem strongInv_create (st : ServiceState) (sid : String) (ok : Bool)
    (h : strongInv st) : strongInv (create_session st sid ok).1 := by
  cases ok with
  | false => exact h
  | true =>
    obtain ⟨hA, hB⟩ := h
    constructor
    · intro p hp
      simp only [create_session, if_true, dictSet] at hp
      simp only [create_session, if_true]
      rcases List.mem_cons.mp hp with hps | hpd
      · subst hps
        refine ⟨Nat.lt_succ_self _, ?_⟩
        exact dictGet_set_self _ _ _
      · obtain ⟨hpm, _⟩ := mem_dictDel hpd
        obtain ⟨hlt, hget⟩ := hA p hpm
        refine ⟨Nat.lt_succ_of_lt hlt, ?_⟩
        rw [dictGet_set_ne _ _ (Nat.ne_of_gt hlt)]
        exact hget
    · simp only [create_session, if_true, dictSet, List.map_cons]
      refine List.Nodup.cons ?_ ((sessions_del_sublist _ _).nodup hB)
      intro hmem
      obtain ⟨p, hpd, hps⟩ := List.mem_map.mp hmem
      obtain ⟨hpm, _⟩ := mem_dictDel hpd
      exact Nat.ne_of_gt (hA p hpm).1 hps.symm

theorem strongInv_close (st : ServiceState) (sid : String)
    (h : strongInv st) :
    strongInv (close_session st sid (Except.ok ()) (Except.ok ())).1 := by
  obtain ⟨hA, hB⟩ := h
  cases hreg : dictGet st.sessions sid with
  | none =>
    simpa [close_session, hreg] using ⟨hA, hB⟩
  | some o =>
    have homem : (sid, o) ∈ st.sessions := dictGet_mem hreg
    constructor
    · intro p hp
      simp only [close_session, hreg] at hp ⊢
      obtain ⟨hpm, hpne⟩ := mem_dictDel hp
      obtain ⟨hlt, hget⟩ := hA p hpm
      refine ⟨hlt, ?_⟩
      have hpo : p.2 ≠ o := by
        intro hpo
        have : p = (sid, o) :=
          List.inj_on_of_nodup_map hB hpm homem hpo
        exact hpne (by rw [this])
      rw [dictGet_markBrowserClosed_ne _ (Ne.symm hpo),
          dictGet_markContextClosed_ne _ (Ne.symm hpo)]
      exact hget
    · simp only [close_session, hreg]
      exact ((sessions_del_sublist _ _).nodup hB)

theorem applyOp_execute_state (st : ServiceState) (sid : String) (d : Driver)
    (req : BrowserActionRequest) : (executeOp st sid d req).1 = st := by
  cases h : dictGet st.sessions sid <;> simp [executeOp, h]

theorem strongInv_foldl (ops : List Op) (st : ServiceState) (h : strongInv st)
    (hok : ∀ op ∈ ops, teardownOk op = true) :
    strongInv (ops.foldl applyOp st) := by
  induction ops generalizing st with
  | nil => exact h
  | cons op ops ih =>
    have hop := hok op (List.mem_cons_self _ _)
    refine ih _ ?_ (fun o ho => hok o (List.mem_cons_of_mem _ ho))
    cases op with
    | create sid ok => exact strongInv_create st sid ok h
    | execute sid d req =>
      show strongInv (executeOp st sid d req).1
      rw [applyOp_execute_state]
      exact h
    | getState sid => exact h
    | close sid c b =>
      simp only [teardownOk, Bool.and_eq_true] at hop
      obtain ⟨hc, hb⟩ := hop
      cases c with
      | error e => simp [exOk] at hc
      | ok u =>
        cases b with
        | error e => simp [exOk] at hb
        | ok v =>
          obtain ⟨⟩ := u
          obtain ⟨⟩ := v
          exact strongInv_close st sid h

/-- The reverse direction of the registry invariant: every session object
whose context and browser are open is registered under some identifier. -/
def openRegistered (st : ServiceState) : Prop :=
  ∀ o r, dictGet st.objs o = some r → r.contextOpen = true → r.browserOpen = true →
    ∃ sid, dictGet st.sessions sid = some o

/-- The identifiers a sequence of requests asks `create` to register.  In the
source these are `str(uuid.uuid4())` values generated inside the handler, so
distinct calls never repeat one; a faithful request sequence has them pairwise
distinct. -/
def createSids : List Op → List String
  | [] => []
  | Op.create sid _ :: rest => sid :: createSids rest
  | Op.execute _ _ _ :: rest => createSids rest
  | Op.getState _ :: rest => createSids rest
  | Op.close _ _ _ :: rest => createSids rest

theorem dictGet_close_marks (m : List (Nat × SessionRec)) (o : Nat) (r : SessionRec)
    (h : dictGet m o = some r) :
    dictGet (markBrowserClosed (markContextClosed m o) o) o =
      some { contextOpen := false, browserOpen := false } := by
  unfold markContextClosed
  rw [h]
  unfold markBrowserClosed
  simp only [dictGet_set_self]

theorem dictGet_close_marks_none (m : List (Nat × SessionRec)) (o : Nat)
    (h : dictGet m o = none) :
    markBrowserClosed (markContextClosed m o) o = m := by
  unfold markContextClosed
  rw [h]
  unfold markBrowserClosed
  rw [h]

theorem openReg_foldl :
    ∀ (ops : List Op) (st : ServiceState) (A : List String),
    openRegistered st → (∀ p ∈ st.sessions, p.1 ∈ A) →
    (createSids ops).Nodup → (∀ s ∈ createSids ops, s ∉ A) →
    (∀ op ∈ ops, teardownOk op = true) →
    openRegistered (ops.foldl applyOp st) := by
  intro ops
  induction ops with
  | nil => intro st A hOR _ _ _ _; exact hOR
  | cons op ops ih =>
    intro st A hOR hD hnd hdisj hok
    have hoktail : ∀ o ∈ ops, teardownOk o = true :=
      fun o ho => hok o (List.mem_cons_of_mem _ ho)
    cases op with
    | create sid ok =>
      have hndtail : (createSids ops).Nodup := (List.nodup_cons.mp hnd).2
      have hsidnew : sid ∉ createSids ops := (List.nodup_cons.mp hnd).1
      have hsidA : sid ∉ A := hdisj sid (List.mem_cons_self _ _)
      have hdisj' : ∀ s ∈ createSids ops, s ∉ (sid :: A) := by
        intro s hs hmem
        rcases List.mem_cons.mp hmem with hss | hsA
        · exact hsidnew (hss ▸ hs)
        · exact hdisj s (List.mem_cons_of_mem _ hs) hsA
      have hfresh : dictGet st.sessions sid = none := by
        cases hreg : dictGet st.sessions sid with
        | none => rfl
        | some o => exact absurd (hD (sid, o) (dictGet_mem hreg)) hsidA
      cases ok with
      | false =>
        exact ih st (sid :: A) hOR
          (fun p hp => List.mem_cons_of_mem _ (hD p hp)) hndtail hdisj' hoktail
      | true =>
        refine ih _ (sid :: A) ?_ ?_ hndtail hdisj' hoktail
        · intro o r hget hcop hbop
          simp only [applyOp, create_session, if_true] at hget ⊢
          by_cases ho : st.nextObj = o
          · subst ho
            exact ⟨sid, dictGet_set_self _ _ _⟩
          · rw [dictGet_set_ne _ _ ho] at hget
            obtain ⟨sid', hsid'⟩ := hOR o r hget hcop hbop
            have hne : sid ≠ sid' := by
              intro hss
              rw [← hss, hfresh] at hsid'
              exact Option.noConfusion hsid'
            exact ⟨sid', by rw [dictGet_set_ne _ _ hne]; exact hsid'⟩
        · intro p hp
          simp only [applyOp, create_session, if_true, dictSet] at hp
          rcases List.mem_cons.mp hp with hps | hpd
          · rw [hps]
            exact List.mem_cons_self _ _
          · exact List.mem_cons_of_mem _ (hD p (mem_dictDel hpd).1)
    | execute sid d req =>
      refine ih _ A ?_ ?_ hnd hdisj hoktail
      · show openRegistered (executeOp st sid d req).1
        rw [applyOp_execute_state]
        exact hOR
      · show ∀ p ∈ (executeOp st sid d req).1.sessions, p.1 ∈ A
        rw [applyOp_execute_state]
        exact hD
    | getState sid => exact ih st A hOR hD hnd hdisj hoktail
    | close sid c b =>
      have hop := hok _ (List.mem_cons_self _ _)
      simp only [teardownOk, Bool.and_eq_true] at hop
      obtain ⟨hc, hb⟩ := hop
      cases c with
      | error e => simp [exOk] at hc
      | ok u =>
        cases b with
        | error e => simp [exOk] at hb
        | ok v =>
          obtain ⟨⟩ := u
          obtain ⟨⟩ := v
          cases hreg : dictGet st.sessions sid with
          | none =>
            refine ih _ A ?_ ?_ hnd hdisj hoktail
            · show openRegistered (close_session st sid (Except.ok ()) (Except.ok ())).1
              simp only [applyOp, close_session, hreg]
              exact hOR
            · show ∀ p ∈ (close_session st sid (Except.ok ()) (Except.ok ())).1.sessions,
                p.1 ∈ A
              simp only [applyOp, close_session, hreg]
              exact hD
          | some o =>
            refine ih _ A ?_ ?_ hnd hdisj hoktail
            · intro o' r hget hcop hbop
              simp only [applyOp, close_session, hreg] at hget ⊢
              by_cases ho : o' = o
              · subst ho
                exfalso
                cases hobj : dictGet st.objs o' with
                | none =>
                  rw [dictGet_close_marks_none _ _ hobj, hobj] at hget
                  exact Option.noConfusion hget
                | some r0 =>
                  rw [dictGet_close_marks _ _ r0 hobj] at hget
                  injection hget with hr
                  rw [← hr] at hcop
                  exact Bool.noConfusion hcop
              · rw [dictGet_markBrowserClosed_ne _ (Ne.symm ho),
                    dictGet_markContextClosed_ne _ (Ne.symm ho)] at hget
                obtain ⟨sid', hsid'⟩ := hOR o' r hget hcop hbop
                have hne : sid ≠ sid' := by
                  intro hss
                  rw [← hss, hreg] at hsid'
                  injection hsid' with hoo
                  exact ho hoo.symm
                exact ⟨sid', by rw [dictGet_del_ne _ hne]; exact hsid'⟩
            · intro p hp
              simp only [applyOp, close_session, hreg] at hp
              exact hD p (mem_dictDel hp).1

theorem openReg_init : openRegistered initState := by
  intro o r hget
  exact Option.noConfusion hget


/-- Claim C6 (amended): provided every `close` teardown succeeds (both the
context close and the browser close return normally) and the uuid-generated
`create` identifiers are pairwise distinct (as `str(uuid.uuid4())` guarantees
and the spec's "no session ID is reused while live" states), every reachable
state satisfies the invariant as an iff: every registered session's context
and browser are open, and every session object whose context and browser are
open is registered under some identifier.  The unqualified claim is refuted
by `claim_C6_counterexample`. -/
theorem claim_C6 (ops : List Op) (hok : ∀ op ∈ ops, teardownOk op = true)
    (hfresh : (createSids ops).Nodup) :
    invHolds (runOps ops) = true ∧
    (∀ sid o, dictGet (runOps ops).sessions sid = some o →
      dictGet (runOps ops).objs o =
        some { contextOpen := true, browserOpen := true }) ∧
    (∀ o r, dictGet (runOps ops).objs o = some r → r.contextOpen = true →
      r.browserOpen = true → ∃ sid, dictGet (runOps ops).sessions sid = some o) := by
  have hinv : strongInv (runOps ops) := strongInv_foldl ops initState strongInv_init hok
  have hrev : openRegistered (runOps ops) :=
    openReg_foldl ops initState [] openReg_init
      (by intro p hp; simp [initState] at hp) hfresh
      (by intro t ht hmem; simp at hmem) hok
  refine ⟨?_, ?_, hrev⟩
  · rw [invHolds, List.all_eq_true]
    intro p hp
    rw [(hinv.1 p hp).2]
    rfl
  · intro sid o hget
    exact (hinv.1 (sid, o) (dictGet_mem hget)).2

theorem claim_C6_witness :
    invHolds (runOps [Op.create "s1" true]) = true := by
  refine (claim_C6 [Op.create "s1" true] ?_ ?_).1
  · intro op hop
    rw [List.mem_singleton.mp hop]
    rfl
  · simp [createSids]

/-- The op sequence refuting claim C6 as stated: create a session, then close
it with the context close succeeding and the browser close raising.  The
session stays registered although its context is closed. -/
def badOps : List Op :=
  [Op.create "s1" true,
   Op.close "s1" (Except.ok ()) (Except.error "browser close failed")]

theorem claim_C6_counterexample :
    dictGet (runOps badOps).sessions "s1" = some 0 ∧
    dictGet (runOps badOps).objs 0 =
      some { contextOpen := false, browserOpen := true } ∧
    invHolds (runOps badOps) = false :=
  ⟨rfl, rfl, rfl⟩



/-! ## Claim C1: the per-session guard -/

/-- Claim C1: (1) every `execute` call's event trace acquires the session's
guard first, performs only driver calls in between, and releases the guard
last, unconditionally on every path (validation error, driver exception or
success); (2) in any admissible schedule of two `execute` calls on the same
session the calls do not interleave: one call's whole trace precedes the
other's, so at most one driver operation per session is in flight and the
call that acquires the guard first completes first; (3) `execute` calls on
two different sessions hold different guards: every interleaving of their
traces is admissible, so neither blocks the other. -/
theorem claim_C1 :
    (∀ sid d req, ∃ ds, (execute_action sid d req).2 = execTrace sid ds) ∧
    (∀ s ds1 ds2 zs, Interleaves (execTrace s ds1) (execTrace s ds2) zs →
      lockValidFrom noneHeld zs = true →
      zs = tagL (execTrace s ds1) ++ tagR (execTrace s ds2) ∨
      zs = tagR (execTrace s ds2) ++ tagL (execTrace s ds1)) ∧
    (∀ s1 s2 ds1 ds2 zs, s1 ≠ s2 →
      Interleaves (execTrace s1 ds1) (execTrace s2 ds2) zs →
      lockValidFrom noneHeld zs = true) := by
  refine ⟨fun sid d req => ⟨((runDispatch d req).2).map Prod.fst, rfl⟩,
    guard_serializes,
    fun s1 s2 ds1 ds2 zs hne h => disjoint_no_block hne ds1 ds2 zs h⟩

theorem claim_C1_witness :
    (∃ ds, (execute_action "s" dEx { action := "wait" }).2 = execTrace "s" ds) ∧
    (tagL (execTrace "s" []) ++ tagR (execTrace "s" []) =
        tagL (execTrace "s" []) ++ tagR (execTrace "s" []) ∨
      tagL (execTrace "s" []) ++ tagR (execTrace "s" []) =
        tagR (execTrace "s" []) ++ tagL (execTrace "s" [])) ∧
    lockValidFrom noneHeld
      [(true, Event.acquire "a"), (false, Event.acquire "b"),
       (true, Event.release "a"), (false, Event.release "b")] = true := by
  refine ⟨claim_C1.1 "s" dEx { action := "wait" },
    claim_C1.2.1 "s" [] [] _ ?_ ?_,
    claim_C1.2.2 "a" "b" [] [] _ (by decide) ?_⟩
  · exact Interleaves.left (Interleaves.left
      (Interleaves.right (Interleaves.right Interleaves.nil)))
  · decide
  · exact Interleaves.left (Interleaves.right
      (Interleaves.left (Interleaves.right Interleaves.nil)))


end BrowserApp
